import Mathlib

/-!
Verification of the agent-receiver provisioning and ingestion subsystem
(`agent_receiver/endpoints.py`) against its design specification.

The embedding translates the endpoint orchestration code directly.  Supporting
modules that are not part of the provided sources (`certs.py`, `utils.py`,
`models.py`, `decompression.py`, the checkmk REST-API adapter) are modelled
from the specification; each such definition carries a doc comment starting
with `Modelled from the spec:`.

Filesystem state (the per-status record buckets plus the per-host payload
files) is modelled as association lists from path-like string keys to
contents, with lookup / erase / insert mirroring POSIX file semantics
(`rename` atomically replaces the destination, `unlink missing_ok` is a
no-op on an absent file).
-/

namespace AgentReceiver

/-- Agent payload bytes. -/
abbrev Bytes := List Nat

/-- Association-list lookup keyed by strings (file name → content). -/
def alookup {α : Type} : List (String × α) → String → Option α
  | [], _ => none
  | (k, v) :: rest, p => if k = p then some v else alookup rest p

/-- Remove every entry with the given key. -/
def aerase {α : Type} : List (String × α) → String → List (String × α)
  | [], _ => []
  | (k, v) :: rest, p => if k = p then aerase rest p else (k, v) :: aerase rest p

/-- Write (create or overwrite) the entry for a key. -/
def ainsert {α : Type} (l : List (String × α)) (p : String) (v : α) :
    List (String × α) :=
  (p, v) :: aerase l p

theorem alookup_insert {α : Type} (l : List (String × α)) (p : String) (v : α) :
    alookup (ainsert l p v) p = some v := by
  simp [ainsert, alookup]

theorem alookup_erase_self {α : Type} (l : List (String × α)) (p : String) :
    alookup (aerase l p) p = none := by
  induction l with
  | nil => simp [aerase, alookup]
  | cons h t ih =>
    obtain ⟨k, v⟩ := h
    by_cases hk : k = p
    · simp [aerase, hk, ih]
    · simp [aerase, alookup, hk, ih]

theorem alookup_erase_ne {α : Type} (l : List (String × α)) (p q : String)
    (h : q ≠ p) : alookup (aerase l p) q = alookup l q := by
  induction l with
  | nil => simp [aerase]
  | cons hd t ih =>
    obtain ⟨k, v⟩ := hd
    by_cases hk : k = p
    · subst hk
      rw [aerase, if_pos rfl, ih]
      rw [alookup, if_neg (fun hkq => h hkq.symm)]
    · rw [aerase, if_neg hk]
      by_cases hkq : k = q
      · rw [alookup, if_pos hkq, alookup, if_pos hkq]
      · rw [alookup, if_neg hkq, alookup, if_neg hkq, ih]

theorem alookup_insert_ne {α : Type} (l : List (String × α)) (p q : String)
    (v : α) (h : q ≠ p) : alookup (ainsert l p v) q = alookup l q := by
  rw [ainsert, alookup, if_neg (fun hpq => h hpq.symm), alookup_erase_ne l p q h]

/-- Registration request lifecycle states; each names one durable bucket. -/
inductive RegistrationStatusEnum
  | NEW
  | READY
  | DISCOVERABLE
  | DECLINED
deriving DecidableEq

/-- Modelled from the spec: `RequestForRegistration` (models.py is not among
the sources) — the serialized record carries the uuid, the requesting
username, the submitted agent labels and an optional rejection notice. -/
structure RequestForRegistration where
  uuid : String
  username : String
  agent_labels : List (String × String)
  rejection_notice : Option String
deriving DecidableEq

/-- The registration request store: one bucket (directory) per status, each
keyed by stringified uuid, plus a flag recording whether the DISCOVERABLE
directory has been created. -/
structure R4RStore where
  newBucket : List (String × RequestForRegistration)
  readyBucket : List (String × RequestForRegistration)
  discoverableBucket : List (String × RequestForRegistration)
  declinedBucket : List (String × RequestForRegistration)
  discoverableDirExists : Bool
deriving DecidableEq

/-- `_move_ready_file`: create the DISCOVERABLE directory if needed
(`mkdir(exist_ok=True)`), then rename `READY/<uuid>.json` to
`DISCOVERABLE/<uuid>.json`, suppressing `FileNotFoundError` when the source
record is absent.  POSIX rename atomically replaces the destination. -/
def move_ready_file (s : R4RStore) (uuid : String) : R4RStore :=
  let s1 := { s with discoverableDirExists := true }
  match alookup s1.readyBucket uuid with
  | none => s1
  | some r =>
      { s1 with
        readyBucket := aerase s1.readyBucket uuid
        discoverableBucket := ainsert s1.discoverableBucket uuid r }

theorem move_ready_file_found (s : R4RStore) (u : String)
    (r : RequestForRegistration) (h : alookup s.readyBucket u = some r) :
    (move_ready_file s u).readyBucket = aerase s.readyBucket u ∧
      (move_ready_file s u).discoverableBucket =
        ainsert s.discoverableBucket u r := by
  simp [move_ready_file, h]

theorem move_ready_file_absent (s : R4RStore) (u : String)
    (h : alookup s.readyBucket u = none) :
    (move_ready_file s u).readyBucket = s.readyBucket ∧
      (move_ready_file s u).discoverableBucket = s.discoverableBucket ∧
      (move_ready_file s u).newBucket = s.newBucket ∧
      (move_ready_file s u).declinedBucket = s.declinedBucket := by
  simp [move_ready_file, h]

theorem move_ready_file_dir (s : R4RStore) (u : String) :
    (move_ready_file s u).discoverableDirExists = true := by
  cases hl : alookup s.readyBucket u <;> simp [move_ready_file, hl]

theorem move_ready_file_fixed (x : R4RStore) (u : String)
    (hx : x.discoverableDirExists = true)
    (hlx : alookup x.readyBucket u = none) : move_ready_file x u = x := by
  obtain ⟨a, b, c, d, e⟩ := x
  simp only at hx hlx
  subst hx
  simp [move_ready_file, hlx]

theorem move_ready_file_ready_none (s : R4RStore) (u : String) :
    alookup (move_ready_file s u).readyBucket u = none := by
  cases hl : alookup s.readyBucket u with
  | none => rw [(move_ready_file_absent s u hl).1, hl]
  | some r => rw [(move_ready_file_found s u r hl).1]; exact alookup_erase_self _ _

/-- C4 — Promoting a registration record from READY to DISCOVERABLE is
idempotent: promotion with no record in the READY bucket leaves every bucket
unchanged (a silent no-op, not a failure), and promoting twice produces
exactly the state of promoting once. -/
theorem promote_idempotent_noop (s : R4RStore) (u : String) :
    move_ready_file (move_ready_file s u) u = move_ready_file s u ∧
      (alookup s.readyBucket u = none →
        (move_ready_file s u).readyBucket = s.readyBucket ∧
          (move_ready_file s u).discoverableBucket = s.discoverableBucket ∧
          (move_ready_file s u).newBucket = s.newBucket ∧
          (move_ready_file s u).declinedBucket = s.declinedBucket) := by
  refine ⟨?_, move_ready_file_absent s u⟩
  exact move_ready_file_fixed _ u (move_ready_file_dir s u)
    (move_ready_file_ready_none s u)

/-- Witness for C4 at a concrete store holding one READY record. -/
theorem promote_idempotent_noop_witness :
    (move_ready_file (move_ready_file
        (R4RStore.mk [] [("u1", ⟨"u1", "alice", [], none⟩)] [] [] false) "u2") "u2" =
      move_ready_file
        (R4RStore.mk [] [("u1", ⟨"u1", "alice", [], none⟩)] [] [] false) "u2") ∧
      ((move_ready_file
          (R4RStore.mk [] [("u1", ⟨"u1", "alice", [], none⟩)] [] [] false) "u2").readyBucket =
        [("u1", ⟨"u1", "alice", [], none⟩)]) := by
  refine ⟨(promote_idempotent_noop
    (R4RStore.mk [] [("u1", ⟨"u1", "alice", [], none⟩)] [] [] false) "u2").1, ?_⟩
  exact ((promote_idempotent_noop
    (R4RStore.mk [] [("u1", ⟨"u1", "alice", [], none⟩)] [] [] false) "u2").2
    (by decide)).1

/-! ### Payload storage: `_store_agent_data` -/

/-- The payload filesystem: file path → content. -/
abbrev FS := List (String × Bytes)

/-- `_store_agent_data`, sequential semantics with failure oracles for the
two fallible steps (`temp_file.write` and `os.rename`).  The code creates a
uniquely named temporary file in the target directory, writes the
decompressed data, renames it over `target_dir / "agent_output"`, and in a
`finally` block unlinks the temporary name with `missing_ok=True`. -/
structure StoreOutcome where
  ok : Bool
  fs : FS
deriving DecidableEq

def store_agent_data (fs : FS) (tempName finalPath : String) (data : Bytes)
    (writeFails renameFails : Bool) : StoreOutcome :=
  let fs1 := ainsert fs tempName []
  if writeFails then ⟨false, aerase fs1 tempName⟩
  else
    let fs2 := ainsert fs1 tempName data
    if renameFails then ⟨false, aerase fs2 tempName⟩
    else
      let fs3 := ainsert (aerase fs2 tempName) finalPath data
      ⟨true, aerase fs3 tempName⟩

theorem store_agent_data_ok (fs : FS) (t f : String) (d : Bytes) (htf : t ≠ f) :
    (store_agent_data fs t f d false false).ok = true ∧
      alookup (store_agent_data fs t f d false false).fs f = some d ∧
      alookup (store_agent_data fs t f d false false).fs t = none := by
  refine ⟨rfl, ?_, ?_⟩
  · show alookup (aerase (ainsert _ f d) t) f = some d
    rw [alookup_erase_ne _ t f (fun h => htf h.symm), alookup_insert]
  · exact alookup_erase_self _ t

theorem store_agent_data_fail (fs : FS) (t f : String) (d : Bytes)
    (wf rf : Bool) (htf : t ≠ f) (hfail : wf = true ∨ rf = true) :
    (store_agent_data fs t f d wf rf).ok = false ∧
      alookup (store_agent_data fs t f d wf rf).fs f = alookup fs f ∧
      alookup (store_agent_data fs t f d wf rf).fs t = none := by
  have hne : ∀ l : FS, ∀ v : Bytes,
      alookup (aerase (ainsert l t v) t) f = alookup l f := by
    intro l v
    rw [alookup_erase_ne _ t f htf.symm, alookup_insert_ne _ t f v htf.symm]
  cases wf with
  | true =>
    exact ⟨rfl, hne fs [], alookup_erase_self _ t⟩
  | false =>
    cases rf with
    | true =>
      refine ⟨rfl, ?_, alookup_erase_self _ t⟩
      show alookup (aerase (ainsert (ainsert fs t []) t d) t) f = alookup fs f
      rw [hne _ d, alookup_insert_ne _ t f [] htf.symm]
    | false => cases hfail with
      | inl h => exact absurd h (by decide)
      | inr h => exact absurd h (by decide)

/-! ### Small-step trace model of `_store_agent_data`

Each Python statement of the store routine is one atomic filesystem action;
interleavings of two concurrent store calls (distinct temporary names, as
guaranteed by `NamedTemporaryFile`) are arbitrary merges of their traces. -/

inductive FsAct
  | create (t : String)
  | writeF (t : String) (d : Bytes)
  | rename (src dst : String)
  | unlink (t : String)
deriving DecidableEq

def applyAct (fs : FS) : FsAct → FS
  | .create t => ainsert fs t []
  | .writeF t d => ainsert fs t d
  | .rename src dst =>
      match alookup fs src with
      | none => fs
      | some c => ainsert (aerase fs src) dst c
  | .unlink t => aerase fs t

def applyTrace (fs : FS) (l : List FsAct) : FS := l.foldl applyAct fs

/-- The traces a single `_store_agent_data` call can produce: full success,
failure during `write` (the `finally` clause removes the temporary file), or
failure during `rename` (likewise). -/
inductive StoreTrace (t f : String) (d : Bytes) : List FsAct → Prop
  | ok : StoreTrace t f d [.create t, .writeF t d, .rename t f, .unlink t]
  | writeFail : StoreTrace t f d [.create t, .unlink t]
  | renameFail : StoreTrace t f d [.create t, .writeF t d, .unlink t]

/-- Intermediate machine states of one store call: `rem` is the remaining
suffix of its trace, `c` the current content of its temporary file. -/
inductive OpOk (t f : String) (d : Bytes) : List FsAct → Option Bytes → Prop
  | done : OpOk t f d [] none
  | s1 : OpOk t f d [.create t, .writeF t d, .rename t f, .unlink t] none
  | s2 : OpOk t f d [.writeF t d, .rename t f, .unlink t] (some [])
  | s3 : OpOk t f d [.rename t f, .unlink t] (some d)
  | s4 : OpOk t f d [.unlink t] none
  | w1 : OpOk t f d [.create t, .unlink t] none
  | w2 : OpOk t f d [.unlink t] (some [])
  | r1 : OpOk t f d [.create t, .writeF t d, .unlink t] none
  | r2 : OpOk t f d [.writeF t d, .unlink t] (some [])
  | r3 : OpOk t f d [.unlink t] (some d)

theorem storeTrace_opOk {t f : String} {d : Bytes} {tr : List FsAct}
    (h : StoreTrace t f d tr) : OpOk t f d tr none := by
  cases h
  · exact OpOk.s1
  · exact OpOk.w1
  · exact OpOk.r1

/-- One atomic step of a store call: the machine invariant is preserved, the
final path is either untouched or set to the complete payload, and no other
path is affected. -/
theorem opOk_step {t f : String} {d : Bytes} {a : FsAct} {rem : List FsAct}
    {c : Option Bytes} (h : OpOk t f d (a :: rem) c) (fs : FS)
    (hc : alookup fs t = c) (htf : t ≠ f) :
    ∃ c2, OpOk t f d rem c2 ∧ alookup (applyAct fs a) t = c2 ∧
      (alookup (applyAct fs a) f = alookup fs f ∨
        alookup (applyAct fs a) f = some d) ∧
      (∀ x, x ≠ t → x ≠ f → alookup (applyAct fs a) x = alookup fs x) := by
  cases h with
  | s1 =>
    exact ⟨some [], OpOk.s2, alookup_insert fs t [],
      Or.inl (alookup_insert_ne fs t f [] htf.symm),
      fun x hx _ => alookup_insert_ne fs t x [] hx⟩
  | s2 =>
    exact ⟨some d, OpOk.s3, alookup_insert fs t d,
      Or.inl (alookup_insert_ne fs t f d htf.symm),
      fun x hx _ => alookup_insert_ne fs t x d hx⟩
  | s3 =>
    refine ⟨none, OpOk.s4, ?_, ?_, ?_⟩
    · show alookup (applyAct fs (.rename t f)) t = none
      simp only [applyAct, hc]
      rw [alookup_insert_ne _ f t d htf]
      exact alookup_erase_self fs t
    · right
      show alookup (applyAct fs (.rename t f)) f = some d
      simp only [applyAct, hc]
      exact alookup_insert _ f d
    · intro x hx hxf
      show alookup (applyAct fs (.rename t f)) x = alookup fs x
      simp only [applyAct, hc]
      rw [alookup_insert_ne _ f x d hxf, alookup_erase_ne _ t x hx]
  | s4 =>
    exact ⟨none, OpOk.done, alookup_erase_self fs t,
      Or.inl (alookup_erase_ne fs t f htf.symm),
      fun x hx _ => alookup_erase_ne fs t x hx⟩
  | w1 =>
    exact ⟨some [], OpOk.w2, alookup_insert fs t [],
      Or.inl (alookup_insert_ne fs t f [] htf.symm),
      fun x hx _ => alookup_insert_ne fs t x [] hx⟩
  | w2 =>
    exact ⟨none, OpOk.done, alookup_erase_self fs t,
      Or.inl (alookup_erase_ne fs t f htf.symm),
      fun x hx _ => alookup_erase_ne fs t x hx⟩
  | r1 =>
    exact ⟨some [], OpOk.r2, alookup_insert fs t [],
      Or.inl (alookup_insert_ne fs t f [] htf.symm),
      fun x hx _ => alookup_insert_ne fs t x [] hx⟩
  | r2 =>
    exact ⟨some d, OpOk.r3, alookup_insert fs t d,
      Or.inl (alookup_insert_ne fs t f d htf.symm),
      fun x hx _ => alookup_insert_ne fs t x d hx⟩
  | r3 =>
    exact ⟨none, OpOk.done, alookup_erase_self fs t,
      Or.inl (alookup_erase_ne fs t f htf.symm),
      fun x hx _ => alookup_erase_ne fs t x hx⟩

/-- An arbitrary merge of two instruction streams. -/
inductive Interleave : List FsAct → List FsAct → List FsAct → Prop
  | nil : Interleave [] [] []
  | consLeft {l1 l2 l : List FsAct} (a : FsAct) :
      Interleave l1 l2 l → Interleave (a :: l1) l2 (a :: l)
  | consRight {l1 l2 l : List FsAct} (a : FsAct) :
      Interleave l1 l2 l → Interleave l1 (a :: l2) (a :: l)

theorem applyTrace_take_succ (fs : FS) (a : FsAct) (l : List FsAct) (m : Nat) :
    applyTrace fs ((a :: l).take (m + 1)) =
      applyTrace (applyAct fs a) (l.take m) := rfl

theorem interleave_safe (t1 t2 f : String) (d1 d2 : Bytes)
    (h1f : t1 ≠ f) (h2f : t2 ≠ f) (h12 : t1 ≠ t2)
    (l1 l2 l : List FsAct) (hint : Interleave l1 l2 l) :
    ∀ (c1 c2 : Option Bytes) (fs : FS),
      OpOk t1 f d1 l1 c1 → OpOk t2 f d2 l2 c2 →
      alookup fs t1 = c1 → alookup fs t2 = c2 →
      ∀ n, alookup (applyTrace fs (l.take n)) f = alookup fs f ∨
        alookup (applyTrace fs (l.take n)) f = some d1 ∨
        alookup (applyTrace fs (l.take n)) f = some d2 := by
  induction hint with
  | nil =>
    intro c1 c2 fs _ _ _ _ n
    left
    rw [List.take_nil]
    rfl
  | consLeft a htail ih =>
    intro c1 c2 fs hop1 hop2 hc1 hc2 n
    cases n with
    | zero => left; rfl
    | succ m =>
      obtain ⟨c1n, hop1n, hc1n, hfstep, hother⟩ := opOk_step hop1 fs hc1 h1f
      have hc2n : alookup (applyAct fs a) t2 = c2 := by
        rw [hother t2 (fun h => h12 h.symm) h2f, hc2]
      have hrest := ih c1n c2 (applyAct fs a) hop1n hop2 hc1n hc2n m
      rw [applyTrace_take_succ]
      rcases hrest with h | h | h
      · rcases hfstep with hsame | hnew
        · left; rw [h, hsame]
        · right; left; rw [h, hnew]
      · right; left; exact h
      · right; right; exact h
  | consRight a htail ih =>
    intro c1 c2 fs hop1 hop2 hc1 hc2 n
    cases n with
    | zero => left; rfl
    | succ m =>
      obtain ⟨c2n, hop2n, hc2n, hfstep, hother⟩ := opOk_step hop2 fs hc2 h2f
      have hc1n : alookup (applyAct fs a) t1 = c1 := by
        rw [hother t1 h12 h1f, hc1]
      have hrest := ih c1 c2n (applyAct fs a) hop1 hop2n hc1n hc2n m
      rw [applyTrace_take_succ]
      rcases hrest with h | h | h
      · rcases hfstep with hsame | hnew
        · left; rw [h, hsame]
        · right; right; rw [h, hnew]
      · right; left; exact h
      · right; right; exact h

theorem applyTrace_ok (fs : FS) (t f : String) (d : Bytes) :
    applyTrace fs [FsAct.create t, FsAct.writeF t d, FsAct.rename t f,
        FsAct.unlink t] =
      (store_agent_data fs t f d false false).fs := by
  simp only [applyTrace, List.foldl, applyAct, store_agent_data,
    Bool.false_eq_true, if_false, alookup_insert]

theorem applyTrace_writeFail (fs : FS) (t f : String) (d : Bytes) :
    applyTrace fs [FsAct.create t, FsAct.unlink t] =
      (store_agent_data fs t f d true false).fs := rfl

theorem applyTrace_renameFail (fs : FS) (t f : String) (d : Bytes) :
    applyTrace fs [FsAct.create t, FsAct.writeF t d, FsAct.unlink t] =
      (store_agent_data fs t f d false true).fs := rfl

/-- C3 — No observable instant shows a partial payload at the final path:
(1) under every interleaving of two store calls (distinct fresh temporary
names) every prefix of the merged trace leaves the final path holding the
previous complete payload or one of the two new complete payloads; (2) on
any failure before the rename completes, the temporary file is deleted, the
failure propagates, and the final path is unchanged; (3) the traces are
exactly the step decomposition of `_store_agent_data`. -/
theorem atomic_payload_visibility :
    (∀ (t1 t2 f : String) (d1 d2 : Bytes) (tr1 tr2 l : List FsAct) (fs : FS),
      t1 ≠ f → t2 ≠ f → t1 ≠ t2 →
      StoreTrace t1 f d1 tr1 → StoreTrace t2 f d2 tr2 →
      Interleave tr1 tr2 l →
      alookup fs t1 = none → alookup fs t2 = none →
      ∀ n, alookup (applyTrace fs (l.take n)) f = alookup fs f ∨
        alookup (applyTrace fs (l.take n)) f = some d1 ∨
        alookup (applyTrace fs (l.take n)) f = some d2) ∧
    (∀ (fs : FS) (t f : String) (d : Bytes) (wf rf : Bool),
      t ≠ f → wf = true ∨ rf = true →
      (store_agent_data fs t f d wf rf).ok = false ∧
        alookup (store_agent_data fs t f d wf rf).fs f = alookup fs f ∧
        alookup (store_agent_data fs t f d wf rf).fs t = none) ∧
    (∀ (fs : FS) (t f : String) (d : Bytes),
      applyTrace fs [FsAct.create t, FsAct.writeF t d, FsAct.rename t f,
          FsAct.unlink t] = (store_agent_data fs t f d false false).fs ∧
      applyTrace fs [FsAct.create t, FsAct.unlink t] =
        (store_agent_data fs t f d true false).fs ∧
      applyTrace fs [FsAct.create t, FsAct.writeF t d, FsAct.unlink t] =
        (store_agent_data fs t f d false true).fs) := by
  refine ⟨?_, store_agent_data_fail, fun fs t f d =>
    ⟨applyTrace_ok fs t f d, applyTrace_writeFail fs t f d,
      applyTrace_renameFail fs t f d⟩⟩
  intro t1 t2 f d1 d2 tr1 tr2 l fs h1f h2f h12 htr1 htr2 hint hn1 hn2 n
  exact interleave_safe t1 t2 f d1 d2 h1f h2f h12 tr1 tr2 l hint none none fs
    (storeTrace_opOk htr1) (storeTrace_opOk htr2) hn1 hn2 n

/-- Witness for C3: a concrete interleaving of a successful store with a
write-failed store over an existing payload, observed after three steps, and
a concrete failed store. -/
theorem atomic_payload_visibility_witness :
    (alookup (applyTrace [("out", [9])]
        (([FsAct.create "t1", FsAct.writeF "t1" [1], FsAct.rename "t1" "out",
            FsAct.unlink "t1", FsAct.create "t2", FsAct.unlink "t2"]).take 3))
        "out" = alookup [("out", [9])] "out" ∨
      alookup (applyTrace [("out", [9])]
        (([FsAct.create "t1", FsAct.writeF "t1" [1], FsAct.rename "t1" "out",
            FsAct.unlink "t1", FsAct.create "t2", FsAct.unlink "t2"]).take 3))
        "out" = some [1] ∨
      alookup (applyTrace [("out", [9])]
        (([FsAct.create "t1", FsAct.writeF "t1" [1], FsAct.rename "t1" "out",
            FsAct.unlink "t1", FsAct.create "t2", FsAct.unlink "t2"]).take 3))
        "out" = some [2]) ∧
      (store_agent_data [] "t1" "out" [5] true false).ok = false := by
  constructor
  · exact atomic_payload_visibility.1 "t1" "t2" "out" [1] [2]
      [FsAct.create "t1", FsAct.writeF "t1" [1], FsAct.rename "t1" "out",
        FsAct.unlink "t1"]
      [FsAct.create "t2", FsAct.unlink "t2"]
      [FsAct.create "t1", FsAct.writeF "t1" [1], FsAct.rename "t1" "out",
        FsAct.unlink "t1", FsAct.create "t2", FsAct.unlink "t2"]
      [("out", [9])] (by decide) (by decide) (by decide)
      StoreTrace.ok StoreTrace.writeFail
      (Interleave.consLeft _ (Interleave.consLeft _ (Interleave.consLeft _
        (Interleave.consLeft _ (Interleave.consRight _
          (Interleave.consRight _ Interleave.nil))))))
      (by decide) (by decide) 3
  · exact (atomic_payload_visibility.2.1 [] "t1" "out" [5] true false
      (by decide) (Or.inl rfl)).1

/-! ### The ingestion endpoint `agent_data` -/

inductive ConnectionMode
  | PUSH
  | PULL
deriving DecidableEq

/-- Modelled from the spec: `RegisteredHost` (utils.py is not among the
sources) — resolving a uuid through the Host Registry Adapter yields the
host name, its connection mode and its agent-output storage path, or fails
with `NotRegisteredException` when the uuid is not linked to any host. -/
structure RegisteredHost where
  name : String
  connection_mode : ConnectionMode
  source_path : String
deriving DecidableEq

/-- Modelled from the spec: the Decompression Gateway (decompression.py is
not among the sources) — `Decompressor(name)` raises `ValueError` for an
unrecognized codec name (here: `none`), and the obtained decompressor raises
`DecompressionError` on data the codec rejects (here: the inner `none`). -/
abbrev CodecTable := String → Option (Bytes → Option Bytes)

/-- The outcome of one `agent_data` call: HTTP status, optional error
detail, and the resulting payload filesystem and request store. -/
structure AgentDataOut where
  status : Nat
  detail : Option String
  fs : FS
  store : R4RStore
deriving DecidableEq

/-- `agent_data`: resolve the registered host (403), require PUSH mode
(403), resolve the codec (400), decompress (400), store atomically, then
best-effort promote the READY record; 204 on success.  `tempName` is the
fresh name chosen by `NamedTemporaryFile`; the write/rename failure oracles
mirror `_store_agent_data`.  An exception escaping the store propagates
(modelled as HTTP 500). -/
def agent_data (registry : String → Option RegisteredHost)
    (codecs : CodecTable) (uuid compression : String)
    (monitoring_data : Bytes) (fs : FS) (store : R4RStore) (tempName : String)
    (writeFails renameFails : Bool) : AgentDataOut :=
  match registry uuid with
  | none => ⟨403, some "Host is not registered", fs, store⟩
  | some host =>
    if host.connection_mode ≠ ConnectionMode.PUSH then
      ⟨403, some "Host is not a push host", fs, store⟩
    else
      match codecs compression with
      | none =>
          ⟨400, some ("Unsupported compression algorithm: " ++ compression),
            fs, store⟩
      | some decompressor =>
        match decompressor monitoring_data with
        | none => ⟨400, some "Decompression of agent data failed", fs, store⟩
        | some decompressed =>
          let out := store_agent_data fs tempName
            (host.source_path ++ "/agent_output") decompressed
            writeFails renameFails
          if out.ok then ⟨204, none, out.fs, move_ready_file store uuid⟩
          else ⟨500, none, out.fs, store⟩

/-- C2 — A successful `agent_data` call (registered PUSH host, recognized
codec, decompressible bytes) stores exactly the decompressed input at the
host's output path, responds 204, and moves a READY registration record, if
present, to DISCOVERABLE. -/
theorem agent_data_success (registry : String → Option RegisteredHost)
    (codecs : CodecTable) (uuid compression : String) (monitoring_data : Bytes)
    (fs : FS) (store : R4RStore) (tempName : String)
    (host : RegisteredHost) (dec : Bytes → Option Bytes) (payload : Bytes)
    (hreg : registry uuid = some host)
    (hmode : host.connection_mode = ConnectionMode.PUSH)
    (hcodec : codecs compression = some dec)
    (hdec : dec monitoring_data = some payload)
    (htmp : tempName ≠ host.source_path ++ "/agent_output") :
    (agent_data registry codecs uuid compression monitoring_data fs store
        tempName false false).status = 204 ∧
      alookup (agent_data registry codecs uuid compression monitoring_data fs
          store tempName false false).fs
        (host.source_path ++ "/agent_output") = some payload ∧
      (agent_data registry codecs uuid compression monitoring_data fs store
          tempName false false).store = move_ready_file store uuid ∧
      (∀ r, alookup store.readyBucket uuid = some r →
        alookup (agent_data registry codecs uuid compression monitoring_data
            fs store tempName false false).store.discoverableBucket uuid =
          some r ∧
        alookup (agent_data registry codecs uuid compression monitoring_data
            fs store tempName false false).store.readyBucket uuid = none) := by
  have hok := store_agent_data_ok fs tempName
    (host.source_path ++ "/agent_output") payload htmp
  have hunfold : agent_data registry codecs uuid compression monitoring_data
      fs store tempName false false =
      ⟨204, none,
        (store_agent_data fs tempName (host.source_path ++ "/agent_output")
          payload false false).fs,
        move_ready_file store uuid⟩ := by
    simp only [agent_data, hreg, hmode, hcodec, hdec, hok.1, if_true]
    simp
  refine ⟨by rw [hunfold], by rw [hunfold]; exact hok.2.1, by rw [hunfold], ?_⟩
  intro r hr
  rw [hunfold]
  have hfound := move_ready_file_found store uuid r hr
  constructor
  · show alookup (move_ready_file store uuid).discoverableBucket uuid = some r
    rw [hfound.2]
    exact alookup_insert _ uuid r
  · exact move_ready_file_ready_none store uuid

/-- Witness for C2 on a concrete registered PUSH host with an identity codec
and a READY record. -/
theorem agent_data_success_witness :
    (agent_data
        (fun u => if u = "u1" then
          some ⟨"h1", ConnectionMode.PUSH, "/data/h1"⟩ else none)
        (fun c => if c = "plain" then some some else none)
        "u1" "plain" [7, 8] []
        (R4RStore.mk [] [("u1", ⟨"u1", "alice", [], none⟩)] [] [] false)
        "/data/h1/tmpabc" false false).status = 204 ∧
      alookup (agent_data
        (fun u => if u = "u1" then
          some ⟨"h1", ConnectionMode.PUSH, "/data/h1"⟩ else none)
        (fun c => if c = "plain" then some some else none)
        "u1" "plain" [7, 8] []
        (R4RStore.mk [] [("u1", ⟨"u1", "alice", [], none⟩)] [] [] false)
        "/data/h1/tmpabc" false false).fs "/data/h1/agent_output" =
        some [7, 8] ∧
      alookup (agent_data
        (fun u => if u = "u1" then
          some ⟨"h1", ConnectionMode.PUSH, "/data/h1"⟩ else none)
        (fun c => if c = "plain" then some some else none)
        "u1" "plain" [7, 8] []
        (R4RStore.mk [] [("u1", ⟨"u1", "alice", [], none⟩)] [] [] false)
        "/data/h1/tmpabc" false false).store.discoverableBucket "u1" =
        some ⟨"u1", "alice", [], none⟩ := by
  have h := agent_data_success
    (fun u => if u = "u1" then
      some ⟨"h1", ConnectionMode.PUSH, "/data/h1"⟩ else none)
    (fun c => if c = "plain" then some some else none)
    "u1" "plain" [7, 8] []
    (R4RStore.mk [] [("u1", ⟨"u1", "alice", [], none⟩)] [] [] false)
    "/data/h1/tmpabc" ⟨"h1", ConnectionMode.PUSH, "/data/h1"⟩ some [7, 8]
    (by decide) rfl rfl rfl (by decide)
  exact ⟨h.1, h.2.1, (h.2.2.2 ⟨"u1", "alice", [], none⟩ (by decide)).1⟩

/-- C5 — `agent_data` fails in the documented order and writes nothing on
failure: no registered host → 403 "Host is not registered"; registered
non-PUSH host → 403; unrecognized codec → 400 "Unsupported compression
algorithm: name"; rejected data → 400; in every case the payload filesystem
and the request store are untouched. -/
theorem agent_data_failures (registry : String → Option RegisteredHost)
    (codecs : CodecTable) (uuid compression : String) (monitoring_data : Bytes)
    (fs : FS) (store : R4RStore) (tempName : String)
    (writeFails renameFails : Bool) :
    (registry uuid = none →
      agent_data registry codecs uuid compression monitoring_data fs store
          tempName writeFails renameFails =
        ⟨403, some "Host is not registered", fs, store⟩) ∧
    (∀ host, registry uuid = some host →
      host.connection_mode ≠ ConnectionMode.PUSH →
      agent_data registry codecs uuid compression monitoring_data fs store
          tempName writeFails renameFails =
        ⟨403, some "Host is not a push host", fs, store⟩) ∧
    (∀ host, registry uuid = some host →
      host.connection_mode = ConnectionMode.PUSH →
      codecs compression = none →
      agent_data registry codecs uuid compression monitoring_data fs store
          tempName writeFails renameFails =
        ⟨400, some ("Unsupported compression algorithm: " ++ compression),
          fs, store⟩) ∧
    (∀ host dec, registry uuid = some host →
      host.connection_mode = ConnectionMode.PUSH →
      codecs compression = some dec →
      dec monitoring_data = none →
      agent_data registry codecs uuid compression monitoring_data fs store
          tempName writeFails renameFails =
        ⟨400, some "Decompression of agent data failed", fs, store⟩) := by
  refine ⟨?_, ?_, ?_, ?_⟩
  · intro h
    simp only [agent_data, h]
  · intro host hreg hmode
    simp only [agent_data, hreg, hmode, if_true]
    simp [hmode]
  · intro host hreg hmode hcodec
    simp only [agent_data, hreg, hmode, hcodec]
    simp
  · intro host dec hreg hmode hcodec hdec
    simp only [agent_data, hreg, hmode, hcodec, hdec]
    simp

/-- Witness for C5: the four failure cases at concrete inputs. -/
theorem agent_data_failures_witness :
    (agent_data (fun _ => none) (fun _ => none) "u1" "zlib" [1]
        [("p", [2])] (R4RStore.mk [] [] [] [] false) "t" false false =
      ⟨403, some "Host is not registered", [("p", [2])],
        R4RStore.mk [] [] [] [] false⟩) ∧
    (agent_data
        (fun u => if u = "u1" then
          some ⟨"h1", ConnectionMode.PULL, "/d"⟩ else none)
        (fun _ => none) "u1" "zlib" [1] [("p", [2])]
        (R4RStore.mk [] [] [] [] false) "t" false false =
      ⟨403, some "Host is not a push host", [("p", [2])],
        R4RStore.mk [] [] [] [] false⟩) ∧
    (agent_data
        (fun u => if u = "u1" then
          some ⟨"h1", ConnectionMode.PUSH, "/d"⟩ else none)
        (fun _ => none) "u1" "bogus" [1] [("p", [2])]
        (R4RStore.mk [] [] [] [] false) "t" false false =
      ⟨400, some "Unsupported compression algorithm: bogus", [("p", [2])],
        R4RStore.mk [] [] [] [] false⟩) ∧
    (agent_data
        (fun u => if u = "u1" then
          some ⟨"h1", ConnectionMode.PUSH, "/d"⟩ else none)
        (fun c => if c = "zlib" then some (fun _ => none) else none)
        "u1" "zlib" [1] [("p", [2])]
        (R4RStore.mk [] [] [] [] false) "t" false false =
      ⟨400, some "Decompression of agent data failed", [("p", [2])],
        R4RStore.mk [] [] [] [] false⟩) := by
  refine ⟨?_, ?_, ?_, ?_⟩
  · exact (agent_data_failures (fun _ => none) (fun _ => none) "u1" "zlib"
      [1] [("p", [2])] (R4RStore.mk [] [] [] [] false) "t" false false).1 rfl
  · exact (agent_data_failures _ _ "u1" "zlib" [1] [("p", [2])]
      (R4RStore.mk [] [] [] [] false) "t" false false).2.1
      ⟨"h1", ConnectionMode.PULL, "/d"⟩ rfl (by decide)
  · exact (agent_data_failures _ _ "u1" "bogus" [1] [("p", [2])]
      (R4RStore.mk [] [] [] [] false) "t" false false).2.2.1
      ⟨"h1", ConnectionMode.PUSH, "/d"⟩ rfl rfl rfl
  · exact (agent_data_failures _ _ "u1" "zlib" [1] [("p", [2])]
      (R4RStore.mk [] [] [] [] false) "t" false false).2.2.2
      ⟨"h1", ConnectionMode.PUSH, "/d"⟩ (fun _ => none) rfl rfl rfl rfl

/-! ### Identity binding, registration and certificate renewal -/

/-- Modelled from the spec: a CSR (certs.py is not among the sources) is an
opaque signed structure carrying a subject Common Name;
`extract_cn_from_csr` reads that subject CN. -/
structure CSR where
  subjectCN : String
deriving DecidableEq

def extract_cn_from_csr (csr : CSR) : String := csr.subjectCN

/-- An HTTP failure as raised by `HTTPException(status_code, detail)`. -/
structure HttpException where
  status_code : Nat
  detail : String
deriving DecidableEq

/-- The detail f-string of `_validate_uuid_against_csr`. -/
def uuidMismatchDetail (uuid cn : String) : String :=
  "UUID (" ++ uuid ++ ") does not match CN (" ++ cn ++ ") of CSR."

/-- `_validate_uuid_against_csr`: fails with 400 unless the CSR subject CN
exactly equals the string form of the uuid. -/
def validate_uuid_against_csr (uuid : String) (csr : CSR) :
    Except HttpException Unit :=
  if uuid ≠ extract_cn_from_csr csr then
    Except.error ⟨400, uuidMismatchDetail uuid (extract_cn_from_csr csr)⟩
  else Except.ok ()

/-- Observable side effects of the provisioning operations, in program
order: querying the controller certificate settings, signing an agent
certificate, linking a host with a uuid at the site, writing a registration
request record. -/
inductive Effect
  | queriedSettings
  | signedCert (cn : String)
  | linkedHost (hostname uuid : String)
  | wroteRecord (uuid : String)
deriving DecidableEq

structure RegisterExistingResponse where
  root_cert : String
  agent_cert : String
  connection_mode : ConnectionMode
deriving DecidableEq

/-- `register_existing`: validate the uuid against the CSR, serialize the
root certificate, sign the agent CSR (querying certificate settings), then
register (link) the host at the site, returning the certificates and the
effective connection mode.  `rootCert`, `signCert` and `registerMode` stand
for the external certificate and REST-API capabilities. -/
def register_existing (rootCert : String) (signCert : CSR → String)
    (registerMode : ConnectionMode) (uuid : String) (csr : CSR)
    (host_name : String) :
    Except HttpException RegisterExistingResponse × List Effect :=
  match validate_uuid_against_csr uuid csr with
  | .error e => (.error e, [])
  | .ok _ =>
      (.ok ⟨rootCert, signCert csr, registerMode⟩,
        [.queriedSettings, .signedCert (extract_cn_from_csr csr),
          .linkedHost host_name uuid])

/-- `renew_certificate`: validate the uuid against the CSR (400), then
require a registered host (403), then query the certificate settings and
sign a fresh agent certificate. -/
def renew_certificate (registry : String → Option RegisteredHost)
    (signCert : CSR → String) (uuid : String) (csr : CSR) :
    Except HttpException String × List Effect :=
  match validate_uuid_against_csr uuid csr with
  | .error e => (.error e, [])
  | .ok _ =>
    match registry uuid with
    | none => (.error ⟨403, "Host is not registered"⟩, [])
    | some _ =>
        (.ok (signCert csr),
          [.queriedSettings, .signedCert (extract_cn_from_csr csr)])

theorem validate_mismatch (uuid : String) (csr : CSR)
    (h : extract_cn_from_csr csr ≠ uuid) :
    validate_uuid_against_csr uuid csr =
      Except.error ⟨400, uuidMismatchDetail uuid (extract_cn_from_csr csr)⟩ := by
  simp only [validate_uuid_against_csr, ne_eq, ite_not]
  rw [if_neg (fun he => h he.symm)]

theorem validate_match (uuid : String) (csr : CSR)
    (h : extract_cn_from_csr csr = uuid) :
    validate_uuid_against_csr uuid csr = Except.ok () := by
  simp only [validate_uuid_against_csr, ne_eq, ite_not]
  rw [if_pos h.symm]

/-- C1 — When the CSR subject CN differs from the stringified uuid, both
`register_existing` and `renew_certificate` fail with HTTP 400, the detail
string names both the UUID and the CN, and no side effect happens: no
certificate is signed, no registration record is written, no host is
linked (empty effect list). -/
theorem identity_mismatch_no_side_effect (uuid : String) (csr : CSR)
    (rootCert : String) (signCert : CSR → String)
    (registerMode : ConnectionMode) (host_name : String)
    (registry : String → Option RegisteredHost)
    (h : extract_cn_from_csr csr ≠ uuid) :
    register_existing rootCert signCert registerMode uuid csr host_name =
      (.error ⟨400, uuidMismatchDetail uuid (extract_cn_from_csr csr)⟩, []) ∧
    renew_certificate registry signCert uuid csr =
      (.error ⟨400, uuidMismatchDetail uuid (extract_cn_from_csr csr)⟩, []) ∧
    (∃ pre mid post,
      uuidMismatchDetail uuid (extract_cn_from_csr csr) =
        pre ++ uuid ++ mid ++ (extract_cn_from_csr csr) ++ post) := by
  refine ⟨?_, ?_, "UUID (", ") does not match CN (", ") of CSR.", rfl⟩
  · simp only [register_existing, validate_mismatch uuid csr h]
  · simp only [renew_certificate, validate_mismatch uuid csr h]

/-- Witness for C1 at a concrete uuid and a CSR with a different CN. -/
theorem identity_mismatch_no_side_effect_witness :
    register_existing "root" (fun _ => "cert") ConnectionMode.PULL
        "1234" ⟨"5678"⟩ "host1" =
      (.error ⟨400, uuidMismatchDetail "1234" "5678"⟩, []) ∧
    renew_certificate (fun _ => none) (fun _ => "cert") "1234" ⟨"5678"⟩ =
      (.error ⟨400, uuidMismatchDetail "1234" "5678"⟩, []) := by
  have h := identity_mismatch_no_side_effect "1234" ⟨"5678"⟩ "root"
    (fun _ => "cert") ConnectionMode.PULL "host1" (fun _ => none) (by decide)
  exact ⟨h.1, h.2.1⟩

/-- C10 — In `renew_certificate` the identity check precedes the
registration check: a CN mismatch yields 400 regardless of registration
state; 403 "Host is not registered" arises only when the CN matches and the
host is unregistered; the certificate-settings lookup and signing happen
only after both checks pass. -/
theorem renew_certificate_check_order
    (registry : String → Option RegisteredHost) (signCert : CSR → String)
    (uuid : String) (csr : CSR) :
    (extract_cn_from_csr csr ≠ uuid →
      renew_certificate registry signCert uuid csr =
        (.error ⟨400, uuidMismatchDetail uuid (extract_cn_from_csr csr)⟩,
          [])) ∧
    (extract_cn_from_csr csr = uuid → registry uuid = none →
      renew_certificate registry signCert uuid csr =
        (.error ⟨403, "Host is not registered"⟩, [])) ∧
    (∀ host, extract_cn_from_csr csr = uuid → registry uuid = some host →
      (renew_certificate registry signCert uuid csr).2 =
        [.queriedSettings, .signedCert (extract_cn_from_csr csr)]) ∧
    ((renew_certificate registry signCert uuid csr).2 ≠ [] →
      extract_cn_from_csr csr = uuid ∧ registry uuid ≠ none) := by
  refine ⟨?_, ?_, ?_, ?_⟩
  · intro h
    exact (identity_mismatch_no_side_effect uuid csr "" signCert
      ConnectionMode.PULL "" registry h).2.1
  · intro hcn hreg
    simp only [renew_certificate, validate_match uuid csr hcn, hreg]
  · intro host hcn hreg
    simp only [renew_certificate, validate_match uuid csr hcn, hreg]
  · intro hne
    by_cases hcn : extract_cn_from_csr csr = uuid
    · refine ⟨hcn, ?_⟩
      intro hreg
      apply hne
      simp only [renew_certificate, validate_match uuid csr hcn, hreg]
    · exact absurd (by
        simp only [renew_certificate, validate_mismatch uuid csr hcn]) hne

/-- Witness for C10: mismatching CN on an unregistered host still yields
400, a matching CN on an unregistered host yields 403. -/
theorem renew_certificate_check_order_witness :
    renew_certificate (fun _ => none) (fun _ => "c") "1234" ⟨"5678"⟩ =
      (.error ⟨400, uuidMismatchDetail "1234" "5678"⟩, []) ∧
    renew_certificate (fun _ => none) (fun _ => "c") "1234" ⟨"1234"⟩ =
      (.error ⟨403, "Host is not registered"⟩, []) := by
  refine ⟨(renew_certificate_check_order (fun _ => none) (fun _ => "c")
    "1234" ⟨"5678"⟩).1 (by decide), ?_⟩
  exact (renew_certificate_check_order (fun _ => none) (fun _ => "c")
    "1234" ⟨"1234"⟩).2.1 (by decide) rfl

/-! ### Registration by hostname and by labels -/

/-- The external site configuration for a host name, as returned by the
`host_configuration` REST call. -/
structure HostConfiguration where
  site : String
  is_cluster : Bool
deriving DecidableEq

/-- `_validate_registration_request`: reject a host monitored on another
site, then reject cluster hosts, both with 403. -/
def validate_registration_request (siteNameV : String)
    (host_config : HostConfiguration) : Except HttpException Unit :=
  if host_config.site ≠ siteNameV then
    Except.error ⟨403,
      "This host is monitored on the site " ++ host_config.site ++
        ", but you tried to register it at the site " ++ siteNameV ++ "."⟩
  else if host_config.is_cluster then
    Except.error ⟨403, "This host is a cluster host. Register its nodes instead."⟩
  else Except.ok ()

/-- `register_with_hostname`: fetch the host configuration (an upstream
failure propagates as an HTTP error from the REST adapter), validate it,
then link the host with the uuid; 204 on success.  No certificate is ever
issued here. -/
def register_with_hostname (hostConfigs : String → Option HostConfiguration)
    (siteNameV : String) (uuid host_name : String) :
    Except HttpException Nat × List Effect :=
  match hostConfigs host_name with
  | none => (.error ⟨502, "Getting host configuration failed"⟩, [])
  | some hc =>
    match validate_registration_request siteNameV hc with
    | .error e => (.error e, [])
    | .ok _ => (.ok 204, [.linkedHost host_name uuid])

/-- C9 — `register_with_hostname` answers 403 without linking for a host
monitored on a different site and 403 without linking for a cluster host; on
success it links the host with the uuid and returns 204; in no case does it
issue a certificate. -/
theorem register_with_hostname_spec
    (hostConfigs : String → Option HostConfiguration) (siteNameV : String)
    (uuid host_name : String) :
    (∀ hc, hostConfigs host_name = some hc → hc.site ≠ siteNameV →
      (register_with_hostname hostConfigs siteNameV uuid host_name).1 =
        .error ⟨403,
          "This host is monitored on the site " ++ hc.site ++
            ", but you tried to register it at the site " ++ siteNameV ++ "."⟩ ∧
      (register_with_hostname hostConfigs siteNameV uuid host_name).2 = []) ∧
    (∀ hc, hostConfigs host_name = some hc → hc.is_cluster = true →
      ∃ d, (register_with_hostname hostConfigs siteNameV uuid host_name).1 =
          .error ⟨403, d⟩ ∧
        (register_with_hostname hostConfigs siteNameV uuid host_name).2 = []) ∧
    (∀ hc, hostConfigs host_name = some hc → hc.site = siteNameV →
      hc.is_cluster = false →
      register_with_hostname hostConfigs siteNameV uuid host_name =
        (.ok 204, [.linkedHost host_name uuid])) ∧
    (∀ c, Effect.signedCert c ∉
      (register_with_hostname hostConfigs siteNameV uuid host_name).2) := by
  refine ⟨?_, ?_, ?_, ?_⟩
  · intro hc hreg hsite
    constructor <;>
      simp [register_with_hostname, hreg, validate_registration_request, hsite]
  · intro hc hreg hcl
    by_cases hsite : hc.site = siteNameV
    · refine ⟨"This host is a cluster host. Register its nodes instead.", ?_, ?_⟩ <;>
        simp [register_with_hostname, hreg, validate_registration_request,
          hsite, hcl]
    · refine ⟨"This host is monitored on the site " ++ hc.site ++
        ", but you tried to register it at the site " ++ siteNameV ++ ".",
        ?_, ?_⟩ <;>
        simp [register_with_hostname, hreg, validate_registration_request,
          hsite]
  · intro hc hreg hsite hcl
    simp [register_with_hostname, hreg, validate_registration_request,
      hsite, hcl]
  · intro c
    cases hreg : hostConfigs host_name with
    | none => simp [register_with_hostname, hreg]
    | some hc =>
      cases hval : validate_registration_request siteNameV hc with
      | error e => simp [register_with_hostname, hreg, hval]
      | ok u => simp [register_with_hostname, hreg, hval]

/-- Witness for C9: cross-site 403, cluster 403, and a successful link. -/
theorem register_with_hostname_spec_witness :
    (register_with_hostname
        (fun h => if h = "web1" then some ⟨"siteB", false⟩ else none)
        "siteA" "u1" "web1").1 =
      .error ⟨403,
        "This host is monitored on the site siteB, but you tried to register it at the site siteA."⟩ ∧
    (∃ d, (register_with_hostname
        (fun h => if h = "web1" then some ⟨"siteA", true⟩ else none)
        "siteA" "u1" "web1").1 = .error ⟨403, d⟩) ∧
    register_with_hostname
        (fun h => if h = "web1" then some ⟨"siteA", false⟩ else none)
        "siteA" "u1" "web1" =
      (.ok 204, [.linkedHost "web1" "u1"]) := by
  refine ⟨?_, ?_, ?_⟩
  · exact ((register_with_hostname_spec
      (fun h => if h = "web1" then some ⟨"siteB", false⟩ else none)
      "siteA" "u1" "web1").1 ⟨"siteB", false⟩ (by decide) (by decide)).1
  · obtain ⟨d, hd, _⟩ := (register_with_hostname_spec
      (fun h => if h = "web1" then some ⟨"siteA", true⟩ else none)
      "siteA" "u1" "web1").2.1 ⟨"siteA", true⟩ (by decide) rfl
    exact ⟨d, hd⟩
  · exact (register_with_hostname_spec
      (fun h => if h = "web1" then some ⟨"siteA", false⟩ else none)
      "siteA" "u1" "web1").2.2.1 ⟨"siteA", false⟩ (by decide) rfl rfl

/-- Modelled from the spec: the site edition capability check
(`cmk_edition(...).supports_registration_with_labels()`, REST adapter not
among the sources) — an edition name together with whether it supports
label-based registration. -/
structure Edition where
  value : String
  supports_labels : Bool
deriving DecidableEq

/-- Modelled from the spec: `R4R.write` (utils.py not among the sources)
durably publishes the record into the bucket named by its status via the
write-temporary-then-atomic-rename discipline; here, the bucket update. -/
def r4rWrite (s : R4RStore) (st : RegistrationStatusEnum)
    (req : RequestForRegistration) : R4RStore :=
  match st with
  | .NEW => { s with newBucket := ainsert s.newBucket req.uuid req }
  | .READY => { s with readyBucket := ainsert s.readyBucket req.uuid req }
  | .DISCOVERABLE =>
      { s with discoverableBucket := ainsert s.discoverableBucket req.uuid req }
  | .DECLINED =>
      { s with declinedBucket := ainsert s.declinedBucket req.uuid req }

/-- `register_with_labels`: check the edition capability (501 if label-based
registration is unsupported), else persist a NEW RegistrationRequestRecord
with the uuid, the requesting username and the submitted labels; 204. -/
def register_with_labels (edition : Edition) (username uuid : String)
    (agent_labels : List (String × String)) (s : R4RStore) :
    Except HttpException Nat × R4RStore :=
  if ¬ edition.supports_labels then
    (.error ⟨501,
      "The Checkmk " ++ edition.value ++
        " edition does not support registration with agent labels"⟩, s)
  else (.ok 204, r4rWrite s .NEW ⟨uuid, username, agent_labels, none⟩)

/-- C8 — `register_with_labels` returns 501 and persists nothing when the
edition does not support label-based registration; otherwise it writes a NEW
record carrying the uuid, the requesting username and the submitted agent
labels, and returns 204. -/
theorem register_with_labels_spec (edition : Edition)
    (username uuid : String) (agent_labels : List (String × String))
    (s : R4RStore) :
    (edition.supports_labels = false →
      register_with_labels edition username uuid agent_labels s =
        (.error ⟨501,
          "The Checkmk " ++ edition.value ++
            " edition does not support registration with agent labels"⟩, s)) ∧
    (edition.supports_labels = true →
      (register_with_labels edition username uuid agent_labels s).1 =
        .ok 204 ∧
      alookup (register_with_labels edition username uuid agent_labels
          s).2.newBucket uuid = some ⟨uuid, username, agent_labels, none⟩ ∧
      (register_with_labels edition username uuid agent_labels s).2.readyBucket
          = s.readyBucket ∧
      (register_with_labels edition username uuid agent_labels
          s).2.discoverableBucket = s.discoverableBucket ∧
      (register_with_labels edition username uuid agent_labels
          s).2.declinedBucket = s.declinedBucket) := by
  constructor
  · intro h
    simp [register_with_labels, h]
  · intro h
    refine ⟨?_, ?_, ?_, ?_, ?_⟩ <;>
      simp [register_with_labels, h, r4rWrite, alookup_insert]

/-- Witness for C8: an unsupported and a supported edition at concrete
inputs. -/
theorem register_with_labels_spec_witness :
    register_with_labels ⟨"raw", false⟩ "alice" "u1" [("os", "linux")]
        (R4RStore.mk [] [] [] [] false) =
      (.error ⟨501,
        "The Checkmk raw edition does not support registration with agent labels"⟩,
        R4RStore.mk [] [] [] [] false) ∧
    alookup (register_with_labels ⟨"cloud", true⟩ "alice" "u1"
        [("os", "linux")] (R4RStore.mk [] [] [] [] false)).2.newBucket "u1" =
      some ⟨"u1", "alice", [("os", "linux")], none⟩ := by
  refine ⟨(register_with_labels_spec ⟨"raw", false⟩ "alice" "u1"
    [("os", "linux")] (R4RStore.mk [] [] [] [] false)).1 rfl, ?_⟩
  exact ((register_with_labels_spec ⟨"cloud", true⟩ "alice" "u1"
    [("os", "linux")] (R4RStore.mk [] [] [] [] false)).2 rfl).2.1

/-! ### The registration status query -/

/-- Modelled from the spec: `R4R.read` (utils.py not among the sources)
scans the known status buckets for the record of a uuid; the containing
bucket IS the record's status; absence is a valid outcome. -/
def r4rRead (s : R4RStore) (u : String) :
    Option (RegistrationStatusEnum × RequestForRegistration) :=
  match alookup s.newBucket u with
  | some r => some (.NEW, r)
  | none =>
    match alookup s.readyBucket u with
    | some r => some (.READY, r)
    | none =>
      match alookup s.discoverableBucket u with
      | some r => some (.DISCOVERABLE, r)
      | none =>
        match alookup s.declinedBucket u with
        | some r => some (.DECLINED, r)
        | none => none

/-- The response model of `registration_status`. -/
structure RegistrationStatusOut where
  hostname : Option String
  status : Option RegistrationStatusEnum
  type : Option ConnectionMode
  message : Option String
deriving DecidableEq

/-- `registration_status`: read the pending request record (absence
tolerated), then resolve the host; an unregistered host with a pending
record reports the record's status and rejection notice, an unregistered
host without one is 404, and a registered host reports its name, connection
mode and "Host registered" regardless of any leftover record. -/
def registration_status (registry : String → Option RegisteredHost)
    (s : R4RStore) (uuid : String) :
    Except HttpException RegistrationStatusOut :=
  let r4r := r4rRead s uuid
  match registry uuid with
  | none =>
    match r4r with
    | some (st, req) => .ok ⟨none, some st, none, req.rejection_notice⟩
    | none => .error ⟨404, "Host is not registered"⟩
  | some host =>
      .ok ⟨some host.name, (r4r.map Prod.fst), some host.connection_mode,
        some "Host registered"⟩

/-- C6 — `registration_status` follows the merge rule: a registered host is
reported as registered with its connection mode regardless of any leftover
request record; otherwise a pending record's status and rejection notice are
reported; otherwise 404. -/
theorem registration_status_merge_rule
    (registry : String → Option RegisteredHost) (s : R4RStore)
    (uuid : String) :
    (∀ host, registry uuid = some host →
      registration_status registry s uuid =
        .ok ⟨some host.name, (r4rRead s uuid).map Prod.fst,
          some host.connection_mode, some "Host registered"⟩) ∧
    (∀ st req, registry uuid = none → r4rRead s uuid = some (st, req) →
      registration_status registry s uuid =
        .ok ⟨none, some st, none, req.rejection_notice⟩) ∧
    (registry uuid = none → r4rRead s uuid = none →
      registration_status registry s uuid =
        .error ⟨404, "Host is not registered"⟩) := by
  refine ⟨?_, ?_, ?_⟩
  · intro host hreg
    simp [registration_status, hreg]
  · intro st req hreg hr4r
    simp [registration_status, hreg, hr4r]
  · intro hreg hr4r
    simp [registration_status, hreg, hr4r]

/-- Witness for C6: a READY record without a linked host reports READY; the
same store with the host linked reports registered. -/
theorem registration_status_merge_rule_witness :
    registration_status (fun _ => none)
        (R4RStore.mk [] [("u1", ⟨"u1", "alice", [], none⟩)] [] [] true)
        "u1" =
      .ok ⟨none, some RegistrationStatusEnum.READY, none, none⟩ ∧
    registration_status
        (fun u => if u = "u1" then
          some ⟨"h1", ConnectionMode.PULL, "/d"⟩ else none)
        (R4RStore.mk [] [("u1", ⟨"u1", "alice", [], none⟩)] [] [] true)
        "u1" =
      .ok ⟨some "h1", some RegistrationStatusEnum.READY,
        some ConnectionMode.PULL, some "Host registered"⟩ ∧
    registration_status (fun _ => none)
        (R4RStore.mk [] [] [] [] false) "u1" =
      .error ⟨404, "Host is not registered"⟩ := by
  refine ⟨?_, ?_, ?_⟩
  · exact (registration_status_merge_rule (fun _ => none)
      (R4RStore.mk [] [("u1", ⟨"u1", "alice", [], none⟩)] [] [] true)
      "u1").2.1 RegistrationStatusEnum.READY ⟨"u1", "alice", [], none⟩
      rfl (by decide)
  · exact (registration_status_merge_rule
      (fun u => if u = "u1" then
        some ⟨"h1", ConnectionMode.PULL, "/d"⟩ else none)
      (R4RStore.mk [] [("u1", ⟨"u1", "alice", [], none⟩)] [] [] true)
      "u1").1 ⟨"h1", ConnectionMode.PULL, "/d"⟩ (by decide)
  · exact (registration_status_merge_rule (fun _ => none)
      (R4RStore.mk [] [] [] [] false) "u1").2.2 rfl (by decide)

/-! ### The process-wide root certificate cache -/

/-- `_pem_serizialized_site_root_cert` under `@lru_cache`: one call returns
the cached serialization or computes it once.  `rootPem` is the (immutable)
result of `serialize_to_pem(site_root_certificate())`; the `Nat` counts how
often that computation ran. -/
def pemCall (rootPem : String) (cache : Option String) :
    String × Option String × Nat :=
  match cache with
  | some v => (v, some v, 0)
  | none => (rootPem, some rootPem, 1)

/-- A sequence of `n` calls within one process lifetime, threading the
module-level cache and accumulating the computation count. -/
def pemCalls (rootPem : String) : Nat → Option String →
    List String × Option String × Nat
  | 0, cache => ([], cache, 0)
  | n + 1, cache =>
    let r1 := pemCall rootPem cache
    let rest := pemCalls rootPem n r1.2.1
    (r1.1 :: rest.1, rest.2.1, r1.2.2 + rest.2.2)

theorem pemCalls_cached (rootPem : String) (n : Nat) :
    pemCalls rootPem n (some rootPem) =
      (List.replicate n rootPem, some rootPem, 0) := by
  induction n with
  | zero => rfl
  | succ m ih => simp [pemCalls, pemCall, ih, List.replicate]

/-- C7 — The PEM serialization of the site root certificate is computed at
most once per process: starting from the empty cache, `n` calls perform
`min n 1` computations and every call returns the identical string. -/
theorem root_cert_cached_once (rootPem : String) (n : Nat) :
    pemCalls rootPem n none =
      (List.replicate n rootPem,
        if n = 0 then none else some rootPem,
        min n 1) := by
  cases n with
  | zero => rfl
  | succ m =>
    simp [pemCalls, pemCall, pemCalls_cached, List.replicate,
      Nat.succ_ne_zero]

end AgentReceiver
